import Mathlib

/-!
Shallow embedding of the `actual-api` HTTP facade's validation and
reconciliation core: the zod schemas (`Account`, `CategoryZ`,
`CategoryGroupSchema`, `BudgetMonthSchema`, `CreateTransactionRequestSchema`),
the category-lookup-by-name scan of the `/api/budget` handler, the
category projection of the `/api/categories` handler, the monetary unit
conversion, and the `/api/transaction` handler's validate-then-submit flow.

JSON-decoded JavaScript values are modelled by `Json`; JavaScript numbers by
`JSNumber` (a rational, or one of the non-finite values `NaN`, `Infinity`,
`-Infinity`).  Zod semantics is embedded faithfully: `z.number()` rejects a
`NaN` input (zod assigns `NaN` the parsed type `nan`, distinct from `number`)
but accepts `Infinity`; `z.object` strips unknown keys and validates exactly
the keys of its shape; `z.discriminatedUnion` dispatches on the discriminator
field's value; `z.literal` compares for equality; `.min(1)` on a string checks
the length; `.regex` checks the pattern; `.finite()` rejects the infinities.
-/

/-- A JavaScript number: either a finite value (modelled as a rational,
ignoring double-precision rounding) or one of `NaN`, `Infinity`, `-Infinity`. -/
inductive JSNumber where
  | finite (q : ℚ)
  | nan
  | posInf
  | negInf
deriving DecidableEq, Repr

/-- JavaScript's `Number.isFinite`. -/
def JSNumber.isFinite : JSNumber → Bool
  | .finite _ => true
  | _ => false

/-- A JSON-decoded JavaScript value. -/
inductive Json where
  | null
  | bool (b : Bool)
  | num (n : JSNumber)
  | str (s : String)
  | arr (elems : List Json)
  | obj (kvs : List (String × Json))

/-- Property access `o[k]` on a JavaScript object (objects decoded from JSON
have pairwise-distinct keys, so taking the first binding is exact). -/
def getField (kvs : List (String × Json)) (k : String) : Option Json :=
  (kvs.find? (fun p => p.1 == k)).map Prod.snd

/-- Schema `z.string()` applied to a property-access result: succeeds exactly on a
present string value. -/
def parseStr : Option Json → Option String
  | some (.str s) => some s
  | _ => none

/-- Schema `z.boolean()` applied to a property-access result. -/
def parseBoolJ : Option Json → Option Bool
  | some (.bool b) => some b
  | _ => none

/-- Schema `z.number()` applied to a property-access result: succeeds on a present
number whose zod parsed type is `number`; zod classifies `NaN` as the distinct
parsed type `nan`, so `NaN` is rejected, while the infinities are accepted. -/
def parseNum : Option Json → Option JSNumber
  | some (.num n) => if n = .nan then none else some n
  | _ => none

/-- Schema `Account` (src/src/models/Account.ts): a `z.object` of six fields. -/
structure Account where
  id : String
  name : String
  type : String
  balance : JSNumber
  offbudget : Bool
  closed : Bool
deriving DecidableEq, Repr

/-- Validation `Account.safeParse` on a JSON value. -/
def parseAccount : Json → Option Account
  | .obj kvs => do
    let id ← parseStr (getField kvs "id")
    let name ← parseStr (getField kvs "name")
    let ty ← parseStr (getField kvs "type")
    let balance ← parseNum (getField kvs "balance")
    let offbudget ← parseBoolJ (getField kvs "offbudget")
    let closed ← parseBoolJ (getField kvs "closed")
    pure ⟨id, name, ty, balance, offbudget, closed⟩
  | _ => none

/-- Schema `CategoryZ` (src/src/models/Category.ts): the discriminated union of
`ExpenseCategory` (`is_income: false`) and `RevenueCategory`
(`is_income: true`); the discriminator is the constructor tag. -/
inductive CategoryZ where
  | expense (id name : String) (hidden : Bool) (budgeted spent balance : JSNumber)
  | income (id name : String) (hidden : Bool) (received : JSNumber)
deriving DecidableEq, Repr

/-- The `name` field of a parsed category. -/
def CategoryZ.name : CategoryZ → String
  | .expense _ n _ _ _ _ => n
  | .income _ n _ _ => n

/-- The `id` field of a parsed category. -/
def CategoryZ.id : CategoryZ → String
  | .expense i _ _ _ _ _ => i
  | .income i _ _ _ => i

/-- The `is_income` discriminator of a parsed category. -/
def CategoryZ.is_income : CategoryZ → Bool
  | .expense .. => false
  | .income .. => true

/-- The keys of the object zod returns for a validated category: exactly the
shape keys of the selected union member, in shape order (zod's default
`strip` mode drops all unknown input keys from the output). -/
def CategoryZ.jsonFields : CategoryZ → List String
  | .expense .. => ["id", "name", "is_income", "hidden", "budgeted", "spent", "balance"]
  | .income .. => ["id", "name", "is_income", "hidden", "received"]

/-- Parsing with the `ExpenseCategory` member (already dispatched on
`is_income: false`; the `z.literal(false)` re-check of the discriminator is
then vacuous). -/
def parseExpense (kvs : List (String × Json)) : Option CategoryZ := do
  let id ← parseStr (getField kvs "id")
  let name ← parseStr (getField kvs "name")
  let hidden ← parseBoolJ (getField kvs "hidden")
  let budgeted ← parseNum (getField kvs "budgeted")
  let spent ← parseNum (getField kvs "spent")
  let balance ← parseNum (getField kvs "balance")
  pure (CategoryZ.expense id name hidden budgeted spent balance)

/-- Parsing with the `RevenueCategory` member (already dispatched on
`is_income: true`). -/
def parseRevenue (kvs : List (String × Json)) : Option CategoryZ := do
  let id ← parseStr (getField kvs "id")
  let name ← parseStr (getField kvs "name")
  let hidden ← parseBoolJ (getField kvs "hidden")
  let received ← parseNum (getField kvs "received")
  pure (CategoryZ.income id name hidden received)

/-- Validation `CategoryZ.safeParse`: `z.discriminatedUnion('is_income', [ExpenseCategory,
RevenueCategory])`.  Zod reads the discriminator property and selects the
member whose literal matches its value; a missing or non-boolean discriminator
matches no member and fails. -/
def parseCategoryZ : Json → Option CategoryZ
  | .obj kvs =>
    match getField kvs "is_income" with
    | some (.bool true) => parseRevenue kvs
    | some (.bool false) => parseExpense kvs
    | _ => none
  | _ => none

/-- Schema `CategoryGroupSchema` (src/src/models/Category.ts). -/
structure CategoryGroup where
  id : String
  name : String
  categories : List CategoryZ
deriving DecidableEq, Repr

/-- Schema `z.array(s)` applied to a property-access result: an array whose elements
all parse. -/
def parseArrayWith (p : Json → Option α) : Option Json → Option (List α)
  | some (.arr elems) => elems.mapM p
  | _ => none

/-- Validation `CategoryGroupSchema.safeParse` on a JSON value. -/
def parseCategoryGroup : Json → Option CategoryGroup
  | .obj kvs => do
    let id ← parseStr (getField kvs "id")
    let name ← parseStr (getField kvs "name")
    let categories ← parseArrayWith parseCategoryZ (getField kvs "categories")
    pure ⟨id, name, categories⟩
  | _ => none

/-- Schema `BudgetMonthSchema` (src/src/models/Budget.ts). -/
structure BudgetMonth where
  month : String
  incomeAvailable : JSNumber
  lastMonthOverspent : JSNumber
  forNextMonth : JSNumber
  totalBudgeted : JSNumber
  toBudget : JSNumber
  fromLastMonth : JSNumber
  totalIncome : JSNumber
  totalSpent : JSNumber
  totalBalance : JSNumber
  categoryGroups : List CategoryGroup
deriving DecidableEq, Repr

/-- Validation `BudgetMonthSchema.safeParse` on a JSON value. -/
def parseBudgetMonth : Json → Option BudgetMonth
  | .obj kvs => do
    let month ← parseStr (getField kvs "month")
    let incomeAvailable ← parseNum (getField kvs "incomeAvailable")
    let lastMonthOverspent ← parseNum (getField kvs "lastMonthOverspent")
    let forNextMonth ← parseNum (getField kvs "forNextMonth")
    let totalBudgeted ← parseNum (getField kvs "totalBudgeted")
    let toBudget ← parseNum (getField kvs "toBudget")
    let fromLastMonth ← parseNum (getField kvs "fromLastMonth")
    let totalIncome ← parseNum (getField kvs "totalIncome")
    let totalSpent ← parseNum (getField kvs "totalSpent")
    let totalBalance ← parseNum (getField kvs "totalBalance")
    let categoryGroups ← parseArrayWith parseCategoryGroup (getField kvs "categoryGroups")
    pure ⟨month, incomeAvailable, lastMonthOverspent, forNextMonth, totalBudgeted,
          toBudget, fromLastMonth, totalIncome, totalSpent, totalBalance, categoryGroups⟩
  | _ => none

/-- The kind of a zod validation issue (the `code` of a `ZodIssue`). -/
inductive ZodIssueKind where
  | invalidType
  | tooSmall
  | invalidString
  | notFinite
deriving DecidableEq, Repr

/-- A zod validation issue: its code, the offending key, and its message. -/
structure ZodIssue where
  kind : ZodIssueKind
  path : String
  message : String
deriving DecidableEq, Repr

/-- Schema `CreateTransactionRequestSchema` output (src/src/models/Transaction.ts).
The `amount` passed `.finite()`, so it is a finite number, carried as its
rational value. -/
structure CreateTransactionRequest where
  accountId : String
  date : String
  description : String
  amount : ℚ
  categoryId : String
deriving DecidableEq, Repr

/-- Schema `z.string().min(1, msg)` on the property `key`: a wrong or missing type
yields an `invalid_type` issue; an empty string yields a `too_small` issue
with the schema's custom message. -/
def parseNonEmptyStringField (key msg : String) : Option Json → Except (List ZodIssue) String
  | some (.str s) =>
    if s.length ≥ 1 then .ok s else .error [⟨.tooSmall, key, msg⟩]
  | some _ => .error [⟨.invalidType, key, "Expected string"⟩]
  | none => .error [⟨.invalidType, key, "Required"⟩]

/-- The test of `/^\d{4}-\d{2}-\d{2}$/`: four digits, a dash, two digits, a
dash, two digits — shape only, no calendar validity. -/
def dateShapeOk (s : String) : Bool :=
  match s.data with
  | [a, b, c, d, e, f, g, h, i, j] =>
    a.isDigit && b.isDigit && c.isDigit && d.isDigit && e = '-' &&
      f.isDigit && g.isDigit && h = '-' && i.isDigit && j.isDigit
  | _ => false

/-- Schema `z.string().regex(/^\d{4}-\d{2}-\d{2}$/, msg)` on the property `date`. -/
def parseDateField : Option Json → Except (List ZodIssue) String
  | some (.str s) =>
    if dateShapeOk s then .ok s
    else .error [⟨.invalidString, "date", "Date must be in YYYY-MM-DD format"⟩]
  | some _ => .error [⟨.invalidType, "date", "Expected string"⟩]
  | none => .error [⟨.invalidType, "date", "Required"⟩]

/-- Schema `z.number().finite(msg)` on the property `amount`.  Zod's type check runs
first: `NaN` has parsed type `nan`, so it fails as an `invalid_type` issue and
the `finite` check is never reached; the infinities pass the type check and
fail the `finite` check with the schema's custom message. -/
def parseAmountField : Option Json → Except (List ZodIssue) ℚ
  | some (.num (.finite q)) => .ok q
  | some (.num .nan) => .error [⟨.invalidType, "amount", "Expected number, received nan"⟩]
  | some (.num _) => .error [⟨.notFinite, "amount", "Amount must be a valid number"⟩]
  | some _ => .error [⟨.invalidType, "amount", "Expected number"⟩]
  | none => .error [⟨.invalidType, "amount", "Required"⟩]

/-- The issues of a field result (empty when the field parsed). -/
def fieldIssues : Except (List ZodIssue) α → List ZodIssue
  | .ok _ => []
  | .error es => es

/-- Validation `CreateTransactionRequestSchema.safeParse`: each field is validated
independently and all field issues are reported together, in shape-key
order. -/
def parseCreateTransactionRequest (j : Json) : Except (List ZodIssue) CreateTransactionRequest :=
  match j with
  | .obj kvs =>
    let ra := parseNonEmptyStringField "accountId" "Account ID is required" (getField kvs "accountId")
    let rd := parseDateField (getField kvs "date")
    let rde := parseNonEmptyStringField "description" "Description is required" (getField kvs "description")
    let ram := parseAmountField (getField kvs "amount")
    let rc := parseNonEmptyStringField "categoryId" "Category ID is required" (getField kvs "categoryId")
    match ra, rd, rde, ram, rc with
    | .ok a, .ok d, .ok de, .ok am, .ok c => .ok ⟨a, d, de, am, c⟩
    | _, _, _, _, _ =>
      .error (fieldIssues ra ++ fieldIssues rd ++ fieldIssues rde ++ fieldIssues ram ++ fieldIssues rc)
  | _ => .error [⟨.invalidType, "", "Expected object, received non-object"⟩]

/-- Modelled from the spec: `utils.integerToAmount` of the external
`@actual-app/api` package is not part of this repository's sources; §4.4
describes it as the fixed-point scale conversion from integer minor currency
units to decimal major units, at 100 minor units per major unit
(`integerToAmount(100000) = 1000.00`). -/
def integerToAmount (x : ℤ) : ℚ := (x : ℚ) / 100

/-- Modelled from the spec: `utils.amountToInteger` of the external
`@actual-app/api` package, the inverse fixed-point conversion from decimal
major units to integer minor units, rounding to the nearest integer minor
unit. -/
def amountToInteger (a : ℚ) : ℤ := round (a * 100)

/-- Modelled from the spec: `utils.integerToAmount` as applied to a validated
monetary field, which zod only constrains to be a number, extended to the
non-finite JavaScript numbers by JavaScript division semantics
(`Infinity / 100 = Infinity`, `NaN / 100 = NaN`). -/
def integerToAmountN : JSNumber → JSNumber
  | .finite q => .finite (q / 100)
  | .nan => .nan
  | .posInf => .posInf
  | .negInf => .negInf

/-- JavaScript's `String.prototype.toLowerCase`: lower-case every character
(ASCII range; accented and non-Latin letters are beyond the scenarios of this
API's category names). -/
def jsToLower (s : String) : String :=
  ⟨s.data.map Char.toLower⟩

/-- The case-insensitive name test of the `/api/budget` scan:
`cat.name.toLowerCase() === categoryName.toLowerCase()`. -/
def nameMatches (c : CategoryZ) (categoryName : String) : Bool :=
  jsToLower c.name == jsToLower categoryName

/-- The `for (const group of budgetData.categoryGroups)` loop of the
`/api/budget` handler: within each group, `group.categories.find(...)`; on
the first group with a match the loop breaks with that category. -/
def findInGroups (categoryName : String) : List CategoryGroup → Option CategoryZ
  | [] => none
  | g :: gs =>
    match g.categories.find? (fun c => nameMatches c categoryName) with
    | some c => some c
    | none => findInGroups categoryName gs

/-- The category-lookup-by-name of the `/api/budget` handler
(src/server.ts lines 170–184). -/
def findCategoryByName (bm : BudgetMonth) (categoryName : String) : Option CategoryZ :=
  findInGroups categoryName bm.categoryGroups

/-- All categories of a budget month in group order then within-group
order. -/
def flattenCats (bm : BudgetMonth) : List CategoryZ :=
  (bm.categoryGroups.map CategoryGroup.categories).flatten

/-- The error payload `{ error: string }` with its HTTP status. -/
structure ErrorResponse where
  status : Nat
  error : String
deriving DecidableEq, Repr

/-- Schema `CategoryBudget` (src/src/models/Budget.ts), the `/api/budget` success
payload. -/
structure CategoryBudget where
  categoryId : String
  categoryName : String
  budgeted : JSNumber
  spent : JSNumber
  balance : JSNumber
deriving DecidableEq, Repr

/-- The 404 payload of the `/api/budget` handler. -/
def budgetNotFound (categoryName : String) : ErrorResponse :=
  ⟨404, "Budget data for category " ++ categoryName ++ " not found"⟩

/-- The `/api/budget` handler after budget-month validation (src/server.ts
lines 170–210): scan for the category; `if (!categoryBudget ||
categoryBudget.is_income)` answer the 404 payload; otherwise convert the
three monetary fields and answer the `CategoryBudget` payload. -/
def budgetLookup (bm : BudgetMonth) (categoryName : String) : Except ErrorResponse CategoryBudget :=
  match findCategoryByName bm categoryName with
  | none => .error (budgetNotFound categoryName)
  | some (.income ..) => .error (budgetNotFound categoryName)
  | some (.expense id name _ budgeted spent balance) =>
    .ok ⟨id, name, integerToAmountN budgeted, integerToAmountN spent, integerToAmountN balance⟩

/-- Type `CategoryInfo` (src/src/models/Category.ts): `{id, name, balance}` for an
expense category, `{id, name, received}` for a revenue category. -/
inductive CategoryInfo where
  | expenseInfo (id name : String) (balance : JSNumber)
  | incomeInfo (id name : String) (received : JSNumber)
deriving DecidableEq, Repr

/-- The per-category branch of the `/api/categories` projection: spread
`{received: integerToAmount(category.received)}` when `is_income`, else
`{balance: integerToAmount(category.balance)}`. -/
def categoryToInfo : CategoryZ → CategoryInfo
  | .expense id name _ _ _ balance => .expenseInfo id name (integerToAmountN balance)
  | .income id name _ received => .incomeInfo id name (integerToAmountN received)

/-- The `/api/categories` projection (src/server.ts lines 238–256):
`budgetData.categoryGroups.map(group => group.categories.map(...)).flat()`. -/
def projectCategories (bm : BudgetMonth) : List CategoryInfo :=
  (bm.categoryGroups.map (fun g => g.categories.map categoryToInfo)).flatten

/-- The transaction the `/api/transaction` handler submits to
`addTransactions` (src/server.ts lines 288–295). -/
structure ActualTransaction where
  account : String
  date : String
  notes : String
  amount : ℤ
  category : String
  cleared : Bool
deriving DecidableEq, Repr

/-- The `/api/transaction` response payload with its HTTP status. -/
structure TransactionHandlerResponse where
  status : Nat
  success : Bool
  message : String
  errors : List ZodIssue
deriving DecidableEq, Repr

/-- The `/api/transaction` handler (src/server.ts lines 266–304), paired with
the list of `addTransactions` collaborator calls it performs (each call is an
account id with the transaction batch): validate the body first; on failure
answer 400 with the issues and call nothing; on success build the transaction
(`cleared` always true, amount converted by `amountToInteger`), call
`addTransactions` once, and answer 201. -/
def postTransactionHandler (body : Json) :
    TransactionHandlerResponse × List (String × List ActualTransaction) :=
  match parseCreateTransactionRequest body with
  | .error issues => (⟨400, false, "Validation failed", issues⟩, [])
  | .ok td =>
    let t : ActualTransaction :=
      ⟨td.accountId, td.date, td.description, amountToInteger td.amount, td.categoryId, true⟩
    (⟨201, true, "Transaction created successfully", []⟩, [(td.accountId, [t])])

/-- The same category with its `hidden` flag replaced. -/
def CategoryZ.withHidden (b : Bool) : CategoryZ → CategoryZ
  | .expense i n _ bu sp ba => .expense i n b bu sp ba
  | .income i n _ r => .income i n b r

/-- The same group with every category's `hidden` flag replaced. -/
def CategoryGroup.withAllHidden (b : Bool) (g : CategoryGroup) : CategoryGroup :=
  ⟨g.id, g.name, g.categories.map (CategoryZ.withHidden b)⟩

/-- The same budget month with every category's `hidden` flag replaced. -/
def BudgetMonth.withAllHidden (b : Bool) (bm : BudgetMonth) : BudgetMonth :=
  { bm with categoryGroups := bm.categoryGroups.map (CategoryGroup.withAllHidden b) }

/-- The object carries a string-valued property `k`. -/
def hasStringField (kvs : List (String × Json)) (k : String) : Prop :=
  ∃ s, getField kvs k = some (.str s)

/-- The object carries a boolean-valued property `k`. -/
def hasBoolField (kvs : List (String × Json)) (k : String) : Prop :=
  ∃ b, getField kvs k = some (.bool b)

/-- The object carries a number-valued property `k` whose zod parsed type is
`number` (anything numeric except `NaN`). -/
def hasNumberField (kvs : List (String × Json)) (k : String) : Prop :=
  ∃ n, getField kvs k = some (.num n) ∧ n ≠ JSNumber.nan

/-- A budget month with zero totals and the given groups, for concrete
scenarios. -/
def mkBudgetMonth (gs : List CategoryGroup) : BudgetMonth :=
  ⟨"2024-01", .finite 0, .finite 0, .finite 0, .finite 0, .finite 0, .finite 0,
   .finite 0, .finite 0, .finite 0, gs⟩

/-- A concrete income category named `Salary`. -/
def salaryIncomeCat : CategoryZ := .income "i1" "Salary" false (.finite 200000)

/-- A concrete expense category named `Rent` (lowercase stored name
`groceries` sibling used for the case-insensitivity scenario). -/
def rentExpenseCat : CategoryZ :=
  .expense "c1" "Rent" false (.finite 100000) (.finite 100000) (.finite 0)

/-- A budget month whose only category is the income category `Salary`. -/
def bmWithIncomeSalary : BudgetMonth := mkBudgetMonth [⟨"g1", "Income", [salaryIncomeCat]⟩]

/-- A budget month with one empty group. -/
def bmEmpty : BudgetMonth := mkBudgetMonth [⟨"g1", "Income", []⟩]

/-- A valid expense-category JSON object. -/
def validExpenseKvs : List (String × Json) :=
  [("id", .str "c1"), ("name", .str "Rent"), ("is_income", .bool false),
   ("hidden", .bool false), ("budgeted", .num (.finite 100000)),
   ("spent", .num (.finite 100000)), ("balance", .num (.finite 0))]

/-- A valid income-category JSON object. -/
def validIncomeKvs : List (String × Json) :=
  [("id", .str "i1"), ("name", .str "Salary"), ("is_income", .bool true),
   ("hidden", .bool false), ("received", .num (.finite 200000))]

/-- An income-category JSON object additionally carrying a `budgeted` field. -/
def incomeWithBudgetedKvs : List (String × Json) :=
  [("id", .str "i1"), ("name", .str "Salary"), ("is_income", .bool true),
   ("hidden", .bool false), ("received", .num (.finite 200000)),
   ("budgeted", .num (.finite 500))]

/-- A transaction request body with the given amount and date and the other
fields valid. -/
def mkTxnBody (amount : Json) (date : String) : Json :=
  .obj [("accountId", .str "a1"), ("date", .str date), ("description", .str "d"),
        ("amount", amount), ("categoryId", .str "c9")]

/-- An account JSON object whose `balance` is the given number. -/
def accountJsonWithBalance (n : JSNumber) : Json :=
  .obj [("id", .str "a1"), ("name", .str "Checking"), ("type", .str "checking"),
        ("balance", .num n), ("offbudget", .bool false), ("closed", .bool false)]

/-- An expense-category JSON object whose three monetary fields are the given
number. -/
def expenseJsonWithAmounts (n : JSNumber) : Json :=
  .obj [("id", .str "c1"), ("name", .str "Rent"), ("is_income", .bool false),
        ("hidden", .bool false), ("budgeted", .num n), ("spent", .num n),
        ("balance", .num n)]

/-- An income-category JSON object whose `received` is the given number. -/
def incomeJsonWithReceived (n : JSNumber) : Json :=
  .obj [("id", .str "i1"), ("name", .str "Salary"), ("is_income", .bool true),
        ("hidden", .bool false), ("received", .num n)]

/-- A budget-month JSON object whose nine totals are all the given number. -/
def budgetMonthJsonWithTotals (n : JSNumber) : Json :=
  .obj [("month", .str "2024-01"), ("incomeAvailable", .num n),
        ("lastMonthOverspent", .num n), ("forNextMonth", .num n),
        ("totalBudgeted", .num n), ("toBudget", .num n), ("fromLastMonth", .num n),
        ("totalIncome", .num n), ("totalSpent", .num n), ("totalBalance", .num n),
        ("categoryGroups", .arr [])]

theorem findInGroups_eq_find?_flatten (categoryName : String) (gs : List CategoryGroup) :
    findInGroups categoryName gs
      = ((gs.map CategoryGroup.categories).flatten).find? (fun c => nameMatches c categoryName) := by
  induction gs with
  | nil => simp [findInGroups]
  | cons g gs ih =>
    rw [List.map_cons, List.flatten_cons, List.find?_append, ← ih]
    cases h : g.categories.find? (fun c => nameMatches c categoryName) <;>
      simp [findInGroups, h]

theorem findCategoryByName_eq_find?_flatten (bm : BudgetMonth) (categoryName : String) :
    findCategoryByName bm categoryName
      = (flattenCats bm).find? (fun c => nameMatches c categoryName) :=
  findInGroups_eq_find?_flatten categoryName bm.categoryGroups

theorem projectCategories_eq_map_flatten (bm : BudgetMonth) :
    projectCategories bm = (flattenCats bm).map categoryToInfo := by
  rw [projectCategories, flattenCats, List.map_flatten, List.map_map]
  rfl

/-- Claim C1: the category lookup of the `/api/budget` handler equals the
first case-insensitive name match over the flattened group-then-category
scan (so duplicate names resolve to the first encountered), and it is
not-found exactly when no category of any group matches. -/
theorem c1_findCategoryByName_first_match (bm : BudgetMonth) (categoryName : String) :
    findCategoryByName bm categoryName
        = (flattenCats bm).find? (fun c => nameMatches c categoryName)
      ∧ (findCategoryByName bm categoryName = none
          ↔ ∀ c ∈ flattenCats bm, nameMatches c categoryName = false) := by
  refine ⟨findCategoryByName_eq_find?_flatten bm categoryName, ?_⟩
  rw [findCategoryByName_eq_find?_flatten, List.find?_eq_none]
  simp

/-- Claim C3: converting an exact minor-unit integer to a decimal amount and
back yields the integer (round-trip law of the fixed-point conversion at 100
minor units per major unit). -/
theorem c3_amount_conversion_round_trip (x : ℤ) :
    amountToInteger (integerToAmount x) = x := by
  unfold amountToInteger integerToAmount
  rw [div_mul_cancel₀ _ (by norm_num : (100 : ℚ) ≠ 0), round_intCast]

/-- Claim C7: the `/api/categories` projection is the structure-preserving
map of the variant branch over the flattened group-then-category sequence —
its length is the total category count over all groups, relative order is
preserved, and duplicates are kept, each element converted through the
fixed-point amount conversion by `categoryToInfo`. -/
theorem c7_projectCategories_structure (bm : BudgetMonth) :
    projectCategories bm = (flattenCats bm).map categoryToInfo
      ∧ (projectCategories bm).length
          = (bm.categoryGroups.map (fun g => g.categories.length)).sum := by
  refine ⟨projectCategories_eq_map_flatten bm, ?_⟩
  rw [projectCategories_eq_map_flatten, List.length_map, flattenCats,
    List.length_flatten, List.map_map]
  rfl

theorem nameMatches_withHidden (b : Bool) (c : CategoryZ) (categoryName : String) :
    nameMatches (c.withHidden b) categoryName = nameMatches c categoryName := by
  cases c <;> rfl

theorem categoryToInfo_withHidden (b : Bool) (c : CategoryZ) :
    categoryToInfo (c.withHidden b) = categoryToInfo c := by
  cases c <;> rfl

theorem flattenCats_withAllHidden (b : Bool) (bm : BudgetMonth) :
    flattenCats (bm.withAllHidden b) = (flattenCats bm).map (CategoryZ.withHidden b) := by
  simp only [flattenCats, BudgetMonth.withAllHidden, List.map_map, List.map_flatten]
  rfl

/-- Claim C10: the `hidden` flag is never filtered on — replacing every
category's `hidden` flag (in particular setting it to `true`) leaves the
name lookup finding the same category (with only its flag changed) and
leaves the category projection unchanged. -/
theorem c10_hidden_never_filtered (bm : BudgetMonth) (categoryName : String) (b : Bool) :
    findCategoryByName (bm.withAllHidden b) categoryName
        = (findCategoryByName bm categoryName).map (CategoryZ.withHidden b)
      ∧ projectCategories (bm.withAllHidden b) = projectCategories bm := by
  have hp : (fun c => nameMatches c categoryName) ∘ CategoryZ.withHidden b
      = fun c => nameMatches c categoryName :=
    funext fun c => nameMatches_withHidden b c categoryName
  constructor
  · rw [findCategoryByName_eq_find?_flatten, findCategoryByName_eq_find?_flatten,
      flattenCats_withAllHidden, List.find?_map, hp]
  · rw [projectCategories_eq_map_flatten, projectCategories_eq_map_flatten,
      flattenCats_withAllHidden, List.map_map]
    exact List.map_congr_left fun c _ => categoryToInfo_withHidden b c

/-- Claim C2 counterexample: the failure for a name that matches only an
income category is the very same response (status 404, same message) as the
failure for a name matching no category at all — the two failures are not
distinct.  Searching `Salary` in a budget month whose only category is the
income category `Salary` yields a match, searching it in a month with no
category yields none, yet the handler's error responses are equal. -/
theorem c2_income_and_absent_failures_equal :
    findCategoryByName bmWithIncomeSalary "Salary" = some salaryIncomeCat
      ∧ findCategoryByName bmEmpty "Salary" = none
      ∧ budgetLookup bmWithIncomeSalary "Salary" = budgetLookup bmEmpty "Salary" := by
  refine ⟨by decide, by decide, ?_⟩
  rfl

/-- Claim C2 (amended): a search name matching only an income-variant
category is treated as not eligible and produces the not-found failure, but
this failure is the same 404 response as when the name matches no category at
all, not a distinct one. -/
theorem c2_income_match_not_eligible (bm : BudgetMonth) (categoryName : String) :
    (findCategoryByName bm categoryName = none →
        budgetLookup bm categoryName = .error (budgetNotFound categoryName))
      ∧ (∀ c, findCategoryByName bm categoryName = some c → c.is_income = true →
          budgetLookup bm categoryName = .error (budgetNotFound categoryName)) := by
  constructor
  · intro h
    simp [budgetLookup, h]
  · intro c hc hinc
    cases c with
    | expense i n hd bu sp ba => simp [CategoryZ.is_income] at hinc
    | income i n hd r => simp [budgetLookup, hc]

/-- Claim C2 witness: the amended statement applied to the concrete budget
month whose only category is the income category `Salary`. -/
theorem c2_income_match_not_eligible_witness :
    budgetLookup bmWithIncomeSalary "Salary" = .error (budgetNotFound "Salary") :=
  (c2_income_match_not_eligible bmWithIncomeSalary "Salary").2 salaryIncomeCat (by decide) (by decide)

/-- Claim C8: the `/api/transaction` handler validates the client body before
any external call — on any body rejected by `CreateTransactionRequestSchema`
it answers 400 with the issues and performs no `addTransactions` collaborator
call at all. -/
theorem c8_rejected_request_never_reaches_collaborator (body : Json) (issues : List ZodIssue)
    (h : parseCreateTransactionRequest body = .error issues) :
    postTransactionHandler body = (⟨400, false, "Validation failed", issues⟩, []) := by
  simp [postTransactionHandler, h]

/-- Claim C8 witness: the empty object fails validation with five `Required`
issues and triggers no collaborator call. -/
theorem c8_rejected_request_witness :
    postTransactionHandler (Json.obj [])
      = (⟨400, false, "Validation failed",
          [⟨.invalidType, "accountId", "Required"⟩, ⟨.invalidType, "date", "Required"⟩,
           ⟨.invalidType, "description", "Required"⟩, ⟨.invalidType, "amount", "Required"⟩,
           ⟨.invalidType, "categoryId", "Required"⟩]⟩, []) :=
  c8_rejected_request_never_reaches_collaborator (Json.obj []) _ rfl

theorem parseStr_eq_some (o : Option Json) (s : String) :
    parseStr o = some s ↔ o = some (.str s) := by
  match o with
  | none => simp [parseStr]
  | some .null => simp [parseStr]
  | some (.bool b) => simp [parseStr]
  | some (.num n) => simp [parseStr]
  | some (.str t) => simp [parseStr]
  | some (.arr xs) => simp [parseStr]
  | some (.obj kvs) => simp [parseStr]

theorem parseBoolJ_eq_some (o : Option Json) (b : Bool) :
    parseBoolJ o = some b ↔ o = some (.bool b) := by
  match o with
  | none => simp [parseBoolJ]
  | some .null => simp [parseBoolJ]
  | some (.bool c) => simp [parseBoolJ]
  | some (.num n) => simp [parseBoolJ]
  | some (.str t) => simp [parseBoolJ]
  | some (.arr xs) => simp [parseBoolJ]
  | some (.obj kvs) => simp [parseBoolJ]

theorem parseNum_eq_some (o : Option Json) (n : JSNumber) :
    parseNum o = some n ↔ o = some (.num n) ∧ n ≠ JSNumber.nan := by
  match o with
  | none => simp [parseNum]
  | some .null => simp [parseNum]
  | some (.bool c) => simp [parseNum]
  | some (.str t) => simp [parseNum]
  | some (.arr xs) => simp [parseNum]
  | some (.obj kvs) => simp [parseNum]
  | some (.num m) =>
    by_cases h : m = JSNumber.nan
    · subst h
      simp [parseNum]
      exact fun h' => h'.symm
    · simp [parseNum, h]
      rintro rfl
      exact h

theorem parseRevenue_eq_some (kvs : List (String × Json)) (c : CategoryZ) :
    parseRevenue kvs = some c
      ↔ ∃ id name hid rcv,
          getField kvs "id" = some (.str id) ∧ getField kvs "name" = some (.str name)
            ∧ getField kvs "hidden" = some (.bool hid)
            ∧ (getField kvs "received" = some (.num rcv) ∧ rcv ≠ JSNumber.nan)
            ∧ c = .income id name hid rcv := by
  simp [parseRevenue, Option.bind_eq_some, parseStr_eq_some, parseBoolJ_eq_some,
    parseNum_eq_some]
  aesop

theorem parseExpense_eq_some (kvs : List (String × Json)) (c : CategoryZ) :
    parseExpense kvs = some c
      ↔ ∃ id name hid bu sp ba,
          getField kvs "id" = some (.str id) ∧ getField kvs "name" = some (.str name)
            ∧ getField kvs "hidden" = some (.bool hid)
            ∧ (getField kvs "budgeted" = some (.num bu) ∧ bu ≠ JSNumber.nan)
            ∧ (getField kvs "spent" = some (.num sp) ∧ sp ≠ JSNumber.nan)
            ∧ (getField kvs "balance" = some (.num ba) ∧ ba ≠ JSNumber.nan)
            ∧ c = .expense id name hid bu sp ba := by
  simp [parseExpense, Option.bind_eq_some, parseStr_eq_some, parseBoolJ_eq_some,
    parseNum_eq_some]
  aesop

/-- Claim C4: category validation dispatches on the boolean `is_income`
discriminator — under `is_income: true` it succeeds exactly when the object
carries well-typed `id`, `name`, `hidden`, `received` (all other fields
ignored), and under `is_income: false` exactly when it carries well-typed
`id`, `name`, `hidden`, `budgeted`, `spent`, `balance`. -/
theorem c4_category_validation_dispatch (kvs : List (String × Json)) :
    (getField kvs "is_income" = some (.bool true) →
      ((parseCategoryZ (.obj kvs)).isSome
        ↔ hasStringField kvs "id" ∧ hasStringField kvs "name"
            ∧ hasBoolField kvs "hidden" ∧ hasNumberField kvs "received"))
      ∧ (getField kvs "is_income" = some (.bool false) →
        ((parseCategoryZ (.obj kvs)).isSome
          ↔ hasStringField kvs "id" ∧ hasStringField kvs "name"
              ∧ hasBoolField kvs "hidden" ∧ hasNumberField kvs "budgeted"
              ∧ hasNumberField kvs "spent" ∧ hasNumberField kvs "balance")) := by
  constructor
  · intro h
    simp only [parseCategoryZ, h]
    constructor
    · intro hs
      obtain ⟨c, hc⟩ := Option.isSome_iff_exists.mp hs
      obtain ⟨id, name, hid, rcv, h1, h2, h3, h4, -⟩ := (parseRevenue_eq_some kvs c).mp hc
      exact ⟨⟨id, h1⟩, ⟨name, h2⟩, ⟨hid, h3⟩, ⟨rcv, h4⟩⟩
    · rintro ⟨⟨id, h1⟩, ⟨name, h2⟩, ⟨hid, h3⟩, ⟨rcv, h4, h5⟩⟩
      exact Option.isSome_iff_exists.mpr
        ⟨_, (parseRevenue_eq_some kvs _).mpr ⟨id, name, hid, rcv, h1, h2, h3, ⟨h4, h5⟩, rfl⟩⟩
  · intro h
    simp only [parseCategoryZ, h]
    constructor
    · intro hs
      obtain ⟨c, hc⟩ := Option.isSome_iff_exists.mp hs
      obtain ⟨id, name, hid, bu, sp, ba, h1, h2, h3, h4, h5, h6, -⟩ :=
        (parseExpense_eq_some kvs c).mp hc
      exact ⟨⟨id, h1⟩, ⟨name, h2⟩, ⟨hid, h3⟩, ⟨bu, h4⟩, ⟨sp, h5⟩, ⟨ba, h6⟩⟩
    · rintro ⟨⟨id, h1⟩, ⟨name, h2⟩, ⟨hid, h3⟩, ⟨bu, h4, h4n⟩, ⟨sp, h5, h5n⟩, ⟨ba, h6, h6n⟩⟩
      exact Option.isSome_iff_exists.mpr
        ⟨_, (parseExpense_eq_some kvs _).mpr
          ⟨id, name, hid, bu, sp, ba, h1, h2, h3, ⟨h4, h4n⟩, ⟨h5, h5n⟩, ⟨h6, h6n⟩, rfl⟩⟩

/-- Claim C4 witness: an object with `is_income: true` that additionally
carries a `budgeted` field still validates — the discriminator alone selects
the required-field set and extra fields are ignored. -/
theorem c4_category_validation_dispatch_witness :
    (parseCategoryZ (Json.obj incomeWithBudgetedKvs)).isSome = true :=
  ((c4_category_validation_dispatch incomeWithBudgetedKvs).1 (by rfl)).mpr
    ⟨⟨"i1", by rfl⟩, ⟨"Salary", by rfl⟩, ⟨false, by rfl⟩,
     ⟨.finite 200000, by rfl, by decide⟩⟩

/-- Claim C5 counterexample: a valid expense-category JSON validates, but the
validated result carries the seven expense-schema fields (`id`, `name`,
`is_income`, `hidden`, `budgeted`, `spent`, `balance`), not five; a valid
income-category JSON validates, but the result carries the five
income-schema fields (`id`, `name`, `is_income`, `hidden`, `received`), not
four. -/
theorem c5_field_count_counterexample :
    parseCategoryZ (Json.obj validExpenseKvs) = some rentExpenseCat
      ∧ rentExpenseCat.jsonFields.length = 7
      ∧ ¬rentExpenseCat.jsonFields.length = 5
      ∧ parseCategoryZ (Json.obj validIncomeKvs) = some salaryIncomeCat
      ∧ salaryIncomeCat.jsonFields.length = 5
      ∧ ¬salaryIncomeCat.jsonFields.length = 4 := by
  refine ⟨by decide, by decide, by decide, by decide, by decide, by decide⟩

/-- Claim C5 (amended): for every valid expense-category JSON value schema
validation succeeds and the validated result carries exactly the seven
expense-schema fields `id`, `name`, `is_income`, `hidden`, `budgeted`,
`spent`, `balance`; for every valid income-category JSON value validation
succeeds and the result carries exactly the five income-schema fields `id`,
`name`, `is_income`, `hidden`, `received` (unknown input fields are
stripped). -/
theorem c5_validated_result_fields (kvs : List (String × Json)) :
    (getField kvs "is_income" = some (.bool false) →
      hasStringField kvs "id" → hasStringField kvs "name" → hasBoolField kvs "hidden" →
      hasNumberField kvs "budgeted" → hasNumberField kvs "spent" →
      hasNumberField kvs "balance" →
      ∃ c, parseCategoryZ (.obj kvs) = some c
        ∧ c.jsonFields = ["id", "name", "is_income", "hidden", "budgeted", "spent", "balance"])
      ∧ (getField kvs "is_income" = some (.bool true) →
        hasStringField kvs "id" → hasStringField kvs "name" → hasBoolField kvs "hidden" →
        hasNumberField kvs "received" →
        ∃ c, parseCategoryZ (.obj kvs) = some c
          ∧ c.jsonFields = ["id", "name", "is_income", "hidden", "received"]) := by
  constructor
  · rintro h ⟨id, h1⟩ ⟨name, h2⟩ ⟨hid, h3⟩ ⟨bu, h4, h4n⟩ ⟨sp, h5, h5n⟩ ⟨ba, h6, h6n⟩
    refine ⟨.expense id name hid bu sp ba, ?_, rfl⟩
    simp only [parseCategoryZ, h]
    exact (parseExpense_eq_some kvs _).mpr
      ⟨id, name, hid, bu, sp, ba, h1, h2, h3, ⟨h4, h4n⟩, ⟨h5, h5n⟩, ⟨h6, h6n⟩, rfl⟩
  · rintro h ⟨id, h1⟩ ⟨name, h2⟩ ⟨hid, h3⟩ ⟨rcv, h4, h4n⟩
    refine ⟨.income id name hid rcv, ?_, rfl⟩
    simp only [parseCategoryZ, h]
    exact (parseRevenue_eq_some kvs _).mpr ⟨id, name, hid, rcv, h1, h2, h3, ⟨h4, h4n⟩, rfl⟩

/-- Claim C5 witness: the amended statement applied to the concrete valid
expense and income category objects. -/
theorem c5_validated_result_fields_witness :
    (∃ c, parseCategoryZ (Json.obj validExpenseKvs) = some c
      ∧ c.jsonFields = ["id", "name", "is_income", "hidden", "budgeted", "spent", "balance"])
      ∧ ∃ c, parseCategoryZ (Json.obj validIncomeKvs) = some c
        ∧ c.jsonFields = ["id", "name", "is_income", "hidden", "received"] :=
  ⟨(c5_validated_result_fields validExpenseKvs).1 (by rfl) ⟨"c1", by rfl⟩ ⟨"Rent", by rfl⟩
      ⟨false, by rfl⟩ ⟨.finite 100000, by rfl, by decide⟩ ⟨.finite 100000, by rfl, by decide⟩
      ⟨.finite 0, by rfl, by decide⟩,
   (c5_validated_result_fields validIncomeKvs).2 (by rfl) ⟨"i1", by rfl⟩ ⟨"Salary", by rfl⟩
      ⟨false, by rfl⟩ ⟨.finite 200000, by rfl, by decide⟩⟩

/-- Claim C9: schema validation of the monetary fields checks only that the
value has zod parsed type `number` — for `Account.balance`, the expense
`budgeted`/`spent`/`balance`, the income `received`, and all `BudgetMonth`
totals, every non-`NaN` JavaScript number (in particular non-integers and
`Infinity`) passes validation. -/
theorem c9_monetary_fields_only_checked_number (n : JSNumber) (h : n ≠ JSNumber.nan) :
    parseAccount (accountJsonWithBalance n)
        = some ⟨"a1", "Checking", "checking", n, false, false⟩
      ∧ parseCategoryZ (expenseJsonWithAmounts n)
          = some (.expense "c1" "Rent" false n n n)
      ∧ parseCategoryZ (incomeJsonWithReceived n)
          = some (.income "i1" "Salary" false n)
      ∧ parseBudgetMonth (budgetMonthJsonWithTotals n)
          = some ⟨"2024-01", n, n, n, n, n, n, n, n, n, []⟩ := by
  refine ⟨?_, ?_, ?_, ?_⟩ <;>
    simp [parseAccount, parseCategoryZ, parseExpense, parseRevenue, parseBudgetMonth,
      accountJsonWithBalance, expenseJsonWithAmounts, incomeJsonWithReceived,
      budgetMonthJsonWithTotals, getField, parseStr, parseBoolJ, parseNum, parseArrayWith,
      List.find?, List.mapM, List.mapM.loop, h]

/-- Claim C9 witness: `Infinity` and the non-integer `7/2` both pass every
monetary-field validation. -/
theorem c9_monetary_fields_witness :
    (parseAccount (accountJsonWithBalance .posInf)
        = some ⟨"a1", "Checking", "checking", .posInf, false, false⟩
      ∧ parseCategoryZ (expenseJsonWithAmounts .posInf)
          = some (.expense "c1" "Rent" false .posInf .posInf .posInf)
      ∧ parseCategoryZ (incomeJsonWithReceived .posInf)
          = some (.income "i1" "Salary" false .posInf)
      ∧ parseBudgetMonth (budgetMonthJsonWithTotals .posInf)
          = some ⟨"2024-01", .posInf, .posInf, .posInf, .posInf, .posInf, .posInf,
                  .posInf, .posInf, .posInf, []⟩)
      ∧ (parseAccount (accountJsonWithBalance (.finite (7 / 2)))
          = some ⟨"a1", "Checking", "checking", .finite (7 / 2), false, false⟩
        ∧ parseCategoryZ (expenseJsonWithAmounts (.finite (7 / 2)))
            = some (.expense "c1" "Rent" false (.finite (7 / 2)) (.finite (7 / 2)) (.finite (7 / 2)))
        ∧ parseCategoryZ (incomeJsonWithReceived (.finite (7 / 2)))
            = some (.income "i1" "Salary" false (.finite (7 / 2)))
        ∧ parseBudgetMonth (budgetMonthJsonWithTotals (.finite (7 / 2)))
            = some ⟨"2024-01", .finite (7 / 2), .finite (7 / 2), .finite (7 / 2),
                    .finite (7 / 2), .finite (7 / 2), .finite (7 / 2), .finite (7 / 2),
                    .finite (7 / 2), .finite (7 / 2), []⟩) :=
  ⟨c9_monetary_fields_only_checked_number .posInf (by decide),
   c9_monetary_fields_only_checked_number (.finite (7 / 2)) (by decide)⟩

/-- Claim C6 counterexample: the date `2024-13-40` matches the
`YYYY-MM-DD` digit shape, so a request carrying it passes validation rather
than failing the date-pattern constraint; and an `NaN` amount fails with an
`invalid_type` issue (zod parses `NaN` as the distinct type `nan` before any
`finite` check runs), not with a finite-number constraint violation. -/
theorem c6_nan_and_calendar_date_counterexample :
    parseCreateTransactionRequest (mkTxnBody (.num (.finite 1)) "2024-13-40")
        = .ok ⟨"a1", "2024-13-40", "d", 1, "c9"⟩
      ∧ parseCreateTransactionRequest (mkTxnBody (.num .nan) "2024-01-05")
          = .error [⟨.invalidType, "amount", "Expected number, received nan"⟩] := by
  exact ⟨rfl, rfl⟩

/-- Claim C6 (amended): with the other fields valid, an `Infinity` or
`-Infinity` amount fails validation with exactly the finite-number constraint
violation (custom message `Amount must be a valid number`); an `NaN` amount
fails with an `invalid_type` violation instead, because zod classifies `NaN`
as the parsed type `nan` before the finite check runs; and the date pattern
validates only the `YYYY-MM-DD` digit shape, not calendar correctness, so the
date `2024-13-40` passes validation. -/
theorem c6_amount_and_date_constraints (acct desc cat dt : String) (q : ℚ)
    (ha : acct.length ≥ 1) (hde : desc.length ≥ 1) (hc : cat.length ≥ 1)
    (hd : dateShapeOk dt = true) :
    parseCreateTransactionRequest (.obj [("accountId", .str acct), ("date", .str dt),
        ("description", .str desc), ("amount", .num .posInf), ("categoryId", .str cat)])
        = .error [⟨.notFinite, "amount", "Amount must be a valid number"⟩]
      ∧ parseCreateTransactionRequest (.obj [("accountId", .str acct), ("date", .str dt),
          ("description", .str desc), ("amount", .num .negInf), ("categoryId", .str cat)])
          = .error [⟨.notFinite, "amount", "Amount must be a valid number"⟩]
      ∧ parseCreateTransactionRequest (.obj [("accountId", .str acct), ("date", .str dt),
          ("description", .str desc), ("amount", .num .nan), ("categoryId", .str cat)])
          = .error [⟨.invalidType, "amount", "Expected number, received nan"⟩]
      ∧ parseCreateTransactionRequest (.obj [("accountId", .str acct),
          ("date", .str "2024-13-40"), ("description", .str desc),
          ("amount", .num (.finite q)), ("categoryId", .str cat)])
          = .ok ⟨acct, "2024-13-40", desc, q, cat⟩ := by
  have hdd : dateShapeOk "2024-13-40" = true := by decide
  refine ⟨?_, ?_, ?_, ?_⟩ <;>
    simp [parseCreateTransactionRequest, getField, List.find?, parseNonEmptyStringField,
      parseDateField, parseAmountField, fieldIssues, ha, hde, hc, hd, hdd]

/-- Claim C6 witness: the amended statement applied at concrete field
values. -/
theorem c6_amount_and_date_constraints_witness :
    parseCreateTransactionRequest (.obj [("accountId", .str "a1"), ("date", .str "2024-01-05"),
        ("description", .str "d"), ("amount", .num .posInf), ("categoryId", .str "c9")])
        = .error [⟨.notFinite, "amount", "Amount must be a valid number"⟩]
      ∧ parseCreateTransactionRequest (.obj [("accountId", .str "a1"),
          ("date", .str "2024-01-05"), ("description", .str "d"), ("amount", .num .negInf),
          ("categoryId", .str "c9")])
          = .error [⟨.notFinite, "amount", "Amount must be a valid number"⟩]
      ∧ parseCreateTransactionRequest (.obj [("accountId", .str "a1"),
          ("date", .str "2024-01-05"), ("description", .str "d"), ("amount", .num .nan),
          ("categoryId", .str "c9")])
          = .error [⟨.invalidType, "amount", "Expected number, received nan"⟩]
      ∧ parseCreateTransactionRequest (.obj [("accountId", .str "a1"),
          ("date", .str "2024-13-40"), ("description", .str "d"),
          ("amount", .num (.finite 1)), ("categoryId", .str "c9")])
          = .ok ⟨"a1", "2024-13-40", "d", 1, "c9"⟩ :=
  c6_amount_and_date_constraints "a1" "d" "c9" "2024-01-05" 1 (by decide) (by decide)
    (by decide) (by decide)
